import Mathlib

/-!
Shallow embedding of the conversation-scoring core of the
Audio_Sentiment_Analysis repository (src/analyzer.py, src/app.py,
src/utils.py, src/config.py), together with theorems checking the
natural-language specification against the code.

Numeric conventions: Python floats that only ever hold exact decimal
fractions and integer arithmetic are modelled as rationals; machine
integers appearing here (segment counts, intensities) stay small, so
Nat and Int are used directly.
-/

namespace AudioSentiment

/-! ## Data model (segments and scored segments) -/

/-- Sentiment labels produced by the categorical scorer
(`analyzer.py`, values of the `sentiment` key). -/
inductive Sentiment
| positive
| neutral
| negative
deriving DecidableEq, Repr

/-- Value of the `analysis_status` key of an analyzed segment. -/
inductive AnalysisStatus
| success
| error
deriving DecidableEq, Repr

/-- One input conversation segment: dictionaries with keys `speaker`,
`text` and optional `timestamp` (`segment.get` in the source). -/
structure Segment where
  speaker : String
  text : String
  timestamp : Option String
deriving DecidableEq, Repr

/-- Result dictionary built by `_parse_cohere_response` /
`_create_error_response` in `analyzer.py`. -/
structure ScoredSegment where
  timestamp : String
  speaker : String
  original_text : String
  sentiment : Sentiment
  intensity : Nat
  context : String
  raw_response : String
  analysis_status : AnalysisStatus
deriving DecidableEq, Repr

/-! ## Configuration (config.py, SENTIMENT_CONFIG) -/

/-- Numeric value of a sentiment label
(`SENTIMENT_CONFIG["sentiment_values"]` in `config.py`). -/
def sentiment_value : Sentiment → Int
| Sentiment.positive => 1
| Sentiment.neutral => 0
| Sentiment.negative => -1

/-- Customer speaker aliases
(`SENTIMENT_CONFIG["speaker_aliases"]["customer"]` in `config.py`). -/
def customer_aliases : List String := ["customer", "cliente", "client"]

/-! ## Python substring containment (the `in` operator on strings) -/

/-- Boolean test that `needle` is a prefix of `haystack`
(helper for Python string containment). -/
def isSubAt : List Char → List Char → Bool
| [], _ => true
| _ :: _, [] => false
| c :: cs, d :: ds => c == d && isSubAt cs ds

/-- Boolean test that `needle` occurs contiguously inside `haystack`,
the semantics of the Python expression `needle in haystack`. -/
def hasSub (needle : List Char) : List Char → Bool
| [] => isSubAt needle []
| d :: ds => isSubAt needle (d :: ds) || hasSub needle ds

/-- Python `needle in haystack` on strings. -/
def strContains (needle haystack : String) : Bool :=
  hasSub needle.data haystack.data

/-! ## Python string primitives used by the source, modelled over the
character list of a string (the built-in Lean String operations do not
reduce in the kernel, so the Python semantics is restated here). -/

/-- Python `s.lower()` (ASCII case folding suffices for the alias sets
and response labels the source compares against). -/
def pyLower (s : String) : String := ⟨s.data.map Char.toLower⟩

/-- Python `s.strip()` on a character list: drop leading and trailing
whitespace. -/
def stripChars (s : List Char) : List Char :=
  ((s.dropWhile Char.isWhitespace).reverse.dropWhile Char.isWhitespace).reverse

/-- Python `s.split(sep)` for a one-character separator. -/
def splitOnChar (sep : Char) : List Char → List (List Char)
| [] => [[]]
| c :: cs =>
  if c == sep then [] :: splitOnChar sep cs
  else
    match splitOnChar sep cs with
    | [] => [[c]]
    | h :: t => (c :: h) :: t

/-- Python `s.split(sep, 1)`: the part before the first separator, and
the part after it when the separator occurs. -/
def splitFirst (sep : Char) : List Char → List Char × Option (List Char)
| [] => ([], none)
| c :: cs =>
  if c == sep then ([], some cs)
  else
    let r := splitFirst sep cs
    (c :: r.1, r.2)

/-- Python `line.split(sep, 1)[1]`; the source only evaluates this on
lines already known to contain the separator (they start with a label
ending in a colon), so the default branch is unreachable there. -/
def afterFirst (sep : Char) (line : List Char) : List Char :=
  ((splitFirst sep line).2).getD []

/-! ## Lexicon (VADER) path: windowing and recovery index
(src/app.py, show_vader_analysis_tab) -/

/-- Mean of a list of rationals (pandas `.mean()` over a nonempty
slice; every use below is on a nonempty slice). -/
def listMean (xs : List ℚ) : ℚ := xs.sum / (xs.length : ℚ)

/-- The three per-call window averages of the lexicon path. -/
structure WindowAverages where
  first_avg : ℚ
  middle_avg : ℚ
  last_avg : ℚ
deriving DecidableEq, Repr

/-- Windowing of the customer compound-score sequence, translated from
`app.py` lines 421-462.  Pandas `iloc[a:b]` on a dataframe of length n
is `(drop a).take (b - a)` for 0 ≤ a ≤ b; `max(0, mid_index - 2)` is
Nat-truncated subtraction here since `mid_index : Nat`. -/
def window_averages (scores : List ℚ) : WindowAverages :=
  let total_segments := scores.length
  if total_segments < 6 then
    let overall_avg := listMean scores
    ⟨overall_avg, overall_avg, overall_avg⟩
  else if total_segments < 10 then
    let first_avg := listMean (scores.take 2)
    let last_avg := listMean (scores.drop (total_segments - 2))
    let mid_index := total_segments / 2
    let middle_avg :=
      if total_segments % 2 = 0 then
        listMean ((scores.drop (mid_index - 1)).take 2)
      else if 1 ≤ mid_index then
        listMean ((scores.drop (mid_index - 1)).take 2)
      else
        scores.getD mid_index 0
    ⟨first_avg, middle_avg, last_avg⟩
  else if total_segments < 30 then
    let first_avg := listMean (scores.take 3)
    let last_avg := listMean (scores.drop (total_segments - 3))
    let mid_index := total_segments / 2
    let start_mid := mid_index - 2
    let middle_avg := listMean ((scores.drop start_mid).take 5)
    ⟨first_avg, middle_avg, last_avg⟩
  else
    let first_avg := listMean (scores.take 5)
    let last_avg := listMean (scores.drop (total_segments - 5))
    let mid_index := total_segments / 2
    let start_mid := mid_index - 2
    let middle_avg := listMean ((scores.drop start_mid).take 5)
    ⟨first_avg, middle_avg, last_avg⟩

/-- Recovery index, translated from `app.py` lines 475-485.  The
resolution flag is the integer returned by `analyze_call_solution`
(the code tests it with `== 1`). -/
def sentiment_recovery_index (solved_indicator : Int)
    (first_avg last_avg : ℚ) : ℚ :=
  if solved_indicator = 1 then
    if last_avg < first_avg then
      (1/2) * (1 + (last_avg - first_avg))
    else
      1 * (last_avg - first_avg + 1) / 2
  else
    min 0 (last_avg - first_avg)

/-- Customer test of the categorical path
(`_filter_by_speaker_type(segments, "customer")` in `analyzer.py`:
`s["speaker"].lower() in aliases`, a list-membership test). -/
def analyzer_isCustomer (speaker : String) : Bool :=
  customer_aliases.contains (pyLower speaker)

/-- Customer test of the lexicon path (`app.py` lines 380-383:
`any(alias in seg["speaker"].lower() for alias in [...])`, a substring
test). -/
def vader_isCustomer (speaker : String) : Bool :=
  customer_aliases.any (fun a => strContains a (pyLower speaker))

/-- Customer filter of the VADER tab (`app.py` lines 380-383). -/
def vader_customer_filter (segments : List Segment) : List Segment :=
  segments.filter (fun s => vader_isCustomer s.speaker)

/-! ## Categorical path (src/analyzer.py) -/

/-- One step of the response-parsing loop of `_parse_cohere_response`
(`analyzer.py` lines 102-126): the accumulator carries the current
(sentiment, intensity, context) triple, initially the defaults
(neutral, 3, empty). -/
def parse_line (acc : Sentiment × Nat × String) (rawLine : List Char) :
    Sentiment × Nat × String :=
  let line := stripChars rawLine
  if isSubAt "Sentimiento:".data line || isSubAt "Sentiment:".data line then
    let stext := (stripChars (afterFirst ':' line)).map Char.toLower
    if hasSub "positivo".data stext || hasSub "positive".data stext then
      (Sentiment.positive, acc.2.1, acc.2.2)
    else if hasSub "negativo".data stext || hasSub "negative".data stext then
      (Sentiment.negative, acc.2.1, acc.2.2)
    else
      (Sentiment.neutral, acc.2.1, acc.2.2)
  else if isSubAt "Intensidad:".data line || isSubAt "Intensity:".data line then
    match (stripChars (afterFirst ':' line)).find? Char.isDigit with
    | some c => (acc.1, max 1 (min 5 (c.toNat - 48)), acc.2.2)
    | none => acc
  else if isSubAt "Contexto:".data line || isSubAt "Context:".data line then
    (acc.1, acc.2.1, ⟨stripChars (afterFirst ':' line)⟩)
  else
    acc

/-- Translation of `_parse_cohere_response` (`analyzer.py` lines
86-128): split the stripped response into lines, fold the parsing loop
over them, and assemble the result dictionary with
`analysis_status = success`. -/
def parse_cohere_response (response_text : String) (original : Segment) :
    ScoredSegment :=
  let lines := splitOnChar '\n' (stripChars response_text.data)
  let r := lines.foldl parse_line (Sentiment.neutral, 3, "")
  { timestamp := original.timestamp.getD "N/A"
    speaker := original.speaker
    original_text := original.text
    sentiment := r.1
    intensity := r.2.1
    context := r.2.2
    raw_response := response_text
    analysis_status := AnalysisStatus.success }

/-- Translation of `_create_error_response` (`analyzer.py` lines
130-141). -/
def create_error_response (segment : Segment) (error_msg : String) :
    ScoredSegment :=
  { timestamp := segment.timestamp.getD "N/A"
    speaker := segment.speaker
    original_text := segment.text
    sentiment := Sentiment.neutral
    intensity := 3
    context := "Error: " ++ error_msg
    raw_response := "ERROR: " ++ error_msg
    analysis_status := AnalysisStatus.error }

/-- Translation of `analyze_call_segment` (`analyzer.py` lines
43-84).  The oracle stands for the external boundary: prompt
construction plus the Cohere chat call; `Except.ok` carries the
response text, `Except.error` carries the message of any raised
exception.  The API-not-connected early return of the source is the
oracle failing with that message, since both produce
`_create_error_response` on the same segment. -/
def analyze_call_segment (oracle : Segment → Except String String)
    (segment : Segment) : ScoredSegment :=
  match oracle segment with
  | Except.ok response_text => parse_cohere_response response_text segment
  | Except.error e => create_error_response segment e

/-- Weighted score `sentiment_values[s["sentiment"]] * s["intensity"]`
used by `_calculate_improvement` and `_calculate_overall_improvement`. -/
def segment_score (s : ScoredSegment) : Int :=
  sentiment_value s.sentiment * (s.intensity : Int)

/-- Translation of `_calculate_improvement` (`analyzer.py` lines
204-219): score of the last segment minus score of the first segment,
0.0 when fewer than 2 segments. -/
def calculate_improvement (segments : List ScoredSegment) : ℚ :=
  if segments.length < 2 then 0
  else
    (((segments.getLast?.map segment_score).getD 0 : Int) : ℚ) -
      (((segments.head?.map segment_score).getD 0 : Int) : ℚ)

/-- Translation of `_calculate_overall_improvement` (`analyzer.py`
lines 221-236). -/
def calculate_overall_improvement (segments : List ScoredSegment) : ℚ :=
  if segments.length < 4 then 0
  else
    let midpoint := segments.length / 2
    let first_half := segments.take midpoint
    let second_half := segments.drop midpoint
    listMean (second_half.map (fun s => (segment_score s : ℚ))) -
      listMean (first_half.map (fun s => (segment_score s : ℚ)))

/-- Translation of `_filter_by_speaker_type(segments, "customer")`
(`analyzer.py` lines 199-202) with the customer alias list from
`config.py`. -/
def filter_by_speaker_type_customer (segments : List ScoredSegment) :
    List ScoredSegment :=
  segments.filter (fun s => analyzer_isCustomer s.speaker)

/-- The `metrics` dictionary of the full-call result. -/
structure CallMetrics where
  customer_improvement : ℚ
  overall_improvement : ℚ
  call_success : Bool
  total_segments : Nat
  successful_analyses : Nat
  error_count : Nat
deriving DecidableEq, Repr

/-- The full-call result of `analyze_full_call`.  The time-derived
`call_id` and `timestamp` fields and the presentation-only `summary`
and `recommendations` fields of the source are outside the claims
checked here and are omitted. -/
structure CallAnalysis where
  analyzed_segments : List ScoredSegment
  customer_trajectory : List ScoredSegment
  metrics : CallMetrics
deriving DecidableEq, Repr

/-- Translation of `analyze_full_call` (`analyzer.py` lines 143-197):
reject empty input with `ValueError("No call segments provided")`,
otherwise score every segment in order and assemble metrics. -/
def analyze_full_call (oracle : Segment → Except String String)
    (call_segments : List Segment) : Except String CallAnalysis :=
  if call_segments.isEmpty then
    Except.error "No call segments provided"
  else
    let analyzed_segments := call_segments.map (analyze_call_segment oracle)
    let customer_segments := filter_by_speaker_type_customer analyzed_segments
    let customer_improvement := calculate_improvement customer_segments
    Except.ok
      { analyzed_segments := analyzed_segments
        customer_trajectory := customer_segments
        metrics :=
          { customer_improvement := customer_improvement
            overall_improvement := calculate_overall_improvement analyzed_segments
            call_success := decide (customer_improvement > 0)
            total_segments := analyzed_segments.length
            successful_analyses := (analyzed_segments.filter
              (fun s => s.analysis_status == AnalysisStatus.success)).length
            error_count := (analyzed_segments.filter
              (fun s => s.analysis_status == AnalysisStatus.error)).length } }

/-! ## Segment validation (src/utils.py, validate_segments) -/

/-- Validity flag and error reason of `validate_segments`.  The
descriptive `stats` dictionary of the source (totals, speaker list,
per-speaker counts, average text length) is not covered by any claim
and is omitted. -/
structure ValidationResult where
  valid : Bool
  error : Option String
deriving DecidableEq, Repr

/-- Translation of `ConversationParser.validate_segments` (`utils.py`
lines 144-189).  The distinct-speaker count is over the raw `speaker`
strings (`set(seg["speaker"] for seg in segments)` in the source). -/
def validate_segments (segments : List Segment) : ValidationResult :=
  if segments.isEmpty then
    ⟨false, some "No valid segments found"⟩
  else if segments.length < 2 then
    ⟨false, some "Conversation too short (minimum 2 segments required)"⟩
  else if (segments.map (fun s => s.speaker)).dedup.length < 2 then
    ⟨false, some "Conversation needs at least 2 different speakers"⟩
  else
    ⟨true, none⟩

/-! ## Specification-side definition for the refinement comparison of
the categorical improvement delta -/

/-- Modelled from the spec, section 4.4 table and section 4.5: the
claimed categorical-path improvement delta `last_avg - first_avg`,
where the window averages of the `sentiment_value * intensity` scores
follow the count-dependent window table (the same table the lexicon
path implements in `window_averages`).  Stated only to be compared
with `calculate_improvement`, the function the source actually runs. -/
def spec_windowed_customer_improvement (segments : List ScoredSegment) : ℚ :=
  let w := window_averages (segments.map (fun s => (segment_score s : ℚ)))
  w.last_avg - w.first_avg

/-! ## Concrete inputs used by witnesses and counterexamples -/

/-- The 12-element compound-score sequence from the spec windowing
example. -/
def c3scores : List ℚ :=
  [-(9/10), -(8/10), -(7/10), -(1/10), 0, 1/10, 2/10, 3/10, 4/10,
   6/10, 7/10, 8/10]

/-- A 10-element compound-score sequence. -/
def c2scores : List ℚ := [1, 0, -1, 1/2, 0, 0, 1/2, -1, 0, 1]

/-- Helper building a customer scored segment for concrete tests. -/
def mkScored (sent : Sentiment) (inten : Nat) : ScoredSegment :=
  ⟨"N/A", "Cliente", "", sent, inten, "", "", AnalysisStatus.success⟩

/-- Six customer segments with weighted scores 1, -1, 0, 0, 1, -1. -/
def c4segs : List ScoredSegment :=
  [mkScored Sentiment.positive 1, mkScored Sentiment.negative 1,
   mkScored Sentiment.neutral 1, mkScored Sentiment.neutral 1,
   mkScored Sentiment.positive 1, mkScored Sentiment.negative 1]

/-- A segment whose speaker label contains a customer alias as a
proper substring without being one. -/
def c5seg : Segment := ⟨"Customers", "my card is blocked", none⟩

/-- Two segments whose speaker labels differ only by case. -/
def c6segs : List Segment :=
  [⟨"Customer", "hola", none⟩, ⟨"customer", "gracias", none⟩]

/-- Two segments with two distinct speakers. -/
def c6good : List Segment :=
  [⟨"Cliente", "mi tarjeta no funciona", none⟩,
   ⟨"Agente", "voy a revisar su cuenta", none⟩]

/-- A two-segment conversation, one customer turn and one agent turn. -/
def c7segs : List Segment :=
  [⟨"Cliente", "hola", none⟩, ⟨"Agente", "buenas", none⟩]

/-- An oracle on which every external scoring call fails. -/
def c7oracle : Segment → Except String String :=
  fun _ => Except.error "timeout"

/-! ## Helper lemmas -/

lemma isSubAt_self (l : List Char) : isSubAt l l = true := by
  induction l with
  | nil => rfl
  | cons c cs ih => simp [isSubAt, ih]

lemma hasSub_self (l : List Char) : hasSub l l = true := by
  cases l with
  | nil => rfl
  | cons d ds => simp [hasSub, isSubAt_self]

lemma strContains_self (s : String) : strContains s s = true :=
  hasSub_self s.data

lemma analyze_call_segment_of_error (oracle : Segment → Except String String)
    (s : Segment) (msg : String) (h : oracle s = Except.error msg) :
    analyze_call_segment oracle s = create_error_response s msg := by
  simp [analyze_call_segment, h]

lemma status_filter_partition (l : List ScoredSegment) :
    (l.filter (fun s => s.analysis_status == AnalysisStatus.error)).length +
      (l.filter (fun s => s.analysis_status == AnalysisStatus.success)).length
      = l.length := by
  induction l with
  | nil => rfl
  | cons a t ih =>
    cases h : a.analysis_status <;>
      simp [List.filter_cons, h] <;> omega

lemma analyze_full_call_cons_ok (oracle : Segment → Except String String)
    (a : Segment) (t : List Segment) :
    ∃ r, analyze_full_call oracle (a :: t) = Except.ok r :=
  ⟨_, rfl⟩

/-! ## Claim theorems -/

/-- C1: on the lexicon path the recovery index is computed exactly as
claimed: for a solved call with `last_avg ≥ first_avg` it is
`(last_avg - first_avg + 1) / 2`; for a solved call with
`last_avg < first_avg` it is `0.5 * (1 + (last_avg - first_avg))`;
for an unsolved call it is `min 0 (last_avg - first_avg)` and hence
never positive, for all values of the two averages. -/
theorem recovery_index_formula (first_avg last_avg : ℚ) :
    (first_avg ≤ last_avg →
      sentiment_recovery_index 1 first_avg last_avg
        = (last_avg - first_avg + 1) / 2) ∧
    (last_avg < first_avg →
      sentiment_recovery_index 1 first_avg last_avg
        = (1/2) * (1 + (last_avg - first_avg))) ∧
    (∀ solved : Int, solved ≠ 1 →
      sentiment_recovery_index solved first_avg last_avg
          = min 0 (last_avg - first_avg) ∧
        sentiment_recovery_index solved first_avg last_avg ≤ 0) := by
  refine ⟨?_, ?_, ?_⟩
  · intro h
    unfold sentiment_recovery_index
    rw [if_pos rfl, if_neg (not_lt.mpr h)]
    ring
  · intro h
    unfold sentiment_recovery_index
    rw [if_pos rfl, if_pos h]
  · intro solved hs
    unfold sentiment_recovery_index
    rw [if_neg hs]
    exact ⟨rfl, min_le_left _ _⟩

/-- Witness for C1: the three branches evaluated at concrete window
averages, each hypothesis discharged at the concrete input. -/
theorem recovery_index_formula_witness :
    ((0 : ℚ) ≤ 1/2 ∧
      sentiment_recovery_index 1 0 (1/2) = (1/2 - 0 + 1) / 2) ∧
    ((0 : ℚ) < 1/2 ∧
      sentiment_recovery_index 1 (1/2) 0 = (1/2) * (1 + (0 - 1/2))) ∧
    (sentiment_recovery_index 0 0 (1/2) = min 0 (1/2 - 0) ∧
      sentiment_recovery_index 0 0 (1/2) ≤ 0) :=
  ⟨⟨by norm_num, (recovery_index_formula 0 (1/2)).1 (by norm_num)⟩,
   ⟨by norm_num, (recovery_index_formula (1/2) 0).2.1 (by norm_num)⟩,
   (recovery_index_formula 0 (1/2)).2.2 0 (by norm_num)⟩

/-- C10: the two solved-case branches of the recovery index compute
the same value — `0.5 * (1 + (last_avg - first_avg))` equals
`(last_avg - first_avg + 1) / 2` for all averages — so for a solved
call the index always equals `(last_avg - first_avg + 1) / 2` and the
case split on `last_avg < first_avg` is value-irrelevant. -/
theorem recovery_index_solved_branches_agree (first_avg last_avg : ℚ) :
    (1/2) * (1 + (last_avg - first_avg)) = (last_avg - first_avg + 1) / 2 ∧
    sentiment_recovery_index 1 first_avg last_avg
      = (last_avg - first_avg + 1) / 2 := by
  constructor
  · ring
  · unfold sentiment_recovery_index
    rw [if_pos rfl]
    by_cases h : last_avg < first_avg
    · rw [if_pos h]; ring
    · rw [if_neg h]; ring

/-- C2: for every compound-score sequence of length n with
10 ≤ n < 30, the lexicon-path windowing takes the mean of the first 3
scores, the mean of the last 3 scores, and the mean of the 5-score
window starting at index `max(0, n/2 - 2)` (Nat-truncated subtraction
realises the `max 0`; `take` clips the window at the end of the
list). -/
theorem window_averages_medium (scores : List ℚ)
    (h10 : 10 ≤ scores.length) (h30 : scores.length < 30) :
    window_averages scores =
      ⟨listMean (scores.take 3),
       listMean ((scores.drop (scores.length / 2 - 2)).take 5),
       listMean (scores.drop (scores.length - 3))⟩ := by
  unfold window_averages
  rw [if_neg (by omega), if_neg (by omega), if_pos (by omega)]

/-- Witness for C2: the medium-call windowing evaluated at a concrete
10-element score sequence. -/
theorem window_averages_medium_witness :
    10 ≤ c2scores.length ∧
    window_averages c2scores =
      ⟨listMean (c2scores.take 3),
       listMean ((c2scores.drop (c2scores.length / 2 - 2)).take 5),
       listMean (c2scores.drop (c2scores.length - 3))⟩ :=
  ⟨by decide, window_averages_medium c2scores (by decide) (by decide)⟩

/-- Counterexample for C3: on the 12-score example the last window
average computed by the code is 7/10 (the mean of 0.6, 0.7 and 0.8),
not the 0.633 the claim states (under either reading of that figure,
633/1000 or 19/30). -/
theorem window_averages_example_claim_false :
    (window_averages c3scores).last_avg = 7/10 ∧
    ((7 : ℚ)/10 ≠ 633/1000) ∧ ((7 : ℚ)/10 ≠ 19/30) := by
  refine ⟨?_, by norm_num, by norm_num⟩
  norm_num [window_averages, listMean, c3scores]

/-- C3 as amended: on the 12-score example the windowing yields
first_avg = -0.8, middle_avg = 0.2 (indices 4 through 8) and
last_avg = 0.7. -/
theorem window_averages_example :
    window_averages c3scores = ⟨-(4/5), 1/5, 7/10⟩ := by
  norm_num [window_averages, listMean, c3scores]

/-- Counterexample for C4: on a 6-segment customer subsequence with
weighted scores 1, -1, 0, 0, 1, -1 the code computes
`score(last) - score(first) = -2`, while the claimed windowed delta
(mean of last 2 minus mean of first 2) is 0. -/
theorem calculate_improvement_not_windowed :
    c4segs.length = 6 ∧
    calculate_improvement c4segs = -2 ∧
    spec_windowed_customer_improvement c4segs = 0 ∧
    calculate_improvement c4segs ≠ spec_windowed_customer_improvement c4segs := by
  refine ⟨rfl, ?_, ?_, ?_⟩ <;>
    norm_num [calculate_improvement, spec_windowed_customer_improvement,
      window_averages, listMean, segment_score, sentiment_value, c4segs, mkScored]

/-- C4 as amended: the categorical-path improvement delta is the
weighted score of the single last customer segment minus the weighted
score of the single first customer segment (and 0 for fewer than 2
segments); no count-dependent window means are involved on this
path. -/
theorem calculate_improvement_first_last (a : ScoredSegment)
    (l : List ScoredSegment) (h : l ≠ []) :
    calculate_improvement (a :: l) =
      ((segment_score (l.getLast h) : Int) : ℚ) -
        ((segment_score a : Int) : ℚ) := by
  have hl : 1 ≤ l.length := List.length_pos.mpr h
  unfold calculate_improvement
  rw [if_neg (by simp only [List.length_cons]; omega)]
  rw [List.getLast?_eq_getLast (a :: l) (List.cons_ne_nil a l),
    List.getLast_cons h]
  simp

/-- Witness for C4 as amended: a two-segment customer trajectory from
score -2 to score 3 gives improvement 5. -/
theorem calculate_improvement_first_last_witness :
    calculate_improvement
      [mkScored Sentiment.negative 2, mkScored Sentiment.positive 3] = 5 := by
  rw [calculate_improvement_first_last (mkScored Sentiment.negative 2)
    [mkScored Sentiment.positive 3] (by simp)]
  norm_num [List.getLast, segment_score, sentiment_value, mkScored]

/-- Counterexample for C5: the speaker label `Customers` lower-cases
to `customers`, which is not an element of the alias set, yet the
lexicon path selects it (substring match), while the categorical path
does not; the two paths therefore do not select the same customer
subsequence from the same input. -/
theorem customer_filters_claim_false :
    analyzer_isCustomer "Customers" = false ∧
    vader_isCustomer "Customers" = true ∧
    vader_customer_filter [c5seg] = [c5seg] ∧
    filter_by_speaker_type_customer
      [create_error_response c5seg "offline"] = [] := by
  decide

/-- C5 as amended: the categorical path selects a segment exactly when
its lower-cased speaker label is an element of the alias set, the
lexicon path selects it exactly when some alias occurs as a substring
of the lower-cased label; membership implies substring occurrence, so
the categorical selection is always an ordered sub-sequence of the
lexicon selection, but the two filters are not the same. -/
theorem customer_filters_relation :
    (∀ speaker : String, analyzer_isCustomer speaker = true ↔
      pyLower speaker ∈ customer_aliases) ∧
    (∀ speaker : String,
      analyzer_isCustomer speaker = true → vader_isCustomer speaker = true) ∧
    (∀ segments : List ScoredSegment,
      (filter_by_speaker_type_customer segments).Sublist
        (segments.filter (fun s => vader_isCustomer s.speaker))) := by
  have hmem : ∀ speaker : String, analyzer_isCustomer speaker = true ↔
      pyLower speaker ∈ customer_aliases := by
    intro speaker
    simp [analyzer_isCustomer]
  have himp : ∀ speaker : String,
      analyzer_isCustomer speaker = true → vader_isCustomer speaker = true := by
    intro speaker h
    have hm : pyLower speaker ∈ customer_aliases := (hmem speaker).mp h
    simp only [vader_isCustomer, List.any_eq_true]
    exact ⟨pyLower speaker, hm, strContains_self (pyLower speaker)⟩
  refine ⟨hmem, himp, ?_⟩
  intro segments
  exact List.monotone_filter_right segments (fun s hs => himp s.speaker hs)

/-- Witness for C5 as amended: the label `CLIENTE` is selected by both
filters, and on a concrete one-segment list the categorical selection
is a sub-sequence of the lexicon selection. -/
theorem customer_filters_relation_witness :
    analyzer_isCustomer "CLIENTE" = true ∧
    vader_isCustomer "CLIENTE" = true ∧
    (filter_by_speaker_type_customer
        [create_error_response ⟨"CLIENTE", "hola", none⟩ "x"]).Sublist
      ([create_error_response ⟨"CLIENTE", "hola", none⟩ "x"].filter
        (fun s => vader_isCustomer s.speaker)) :=
  ⟨customer_filters_relation.1 "CLIENTE" |>.mpr (by decide),
   customer_filters_relation.2.1 "CLIENTE" (by decide),
   customer_filters_relation.2.2
     [create_error_response ⟨"CLIENTE", "hola", none⟩ "x"]⟩

/-- Counterexample for C6: the speaker labels `Customer` and
`customer` are one label after lower-casing, so the claim demands the
speaker-count failure, but the validator counts raw labels and
returns valid on this 2-segment list. -/
theorem validate_segments_claim_false :
    2 ≤ c6segs.length ∧
    (c6segs.map (fun s => pyLower s.speaker)).dedup.length < 2 ∧
    (validate_segments c6segs).valid = true := by
  decide

/-- C6 as amended: for a list of at least 2 segments the validator
returns valid exactly when there are at least 2 distinct raw
(case-sensitive) speaker labels, and every invalid outcome in that
regime carries the speaker-count reason. -/
theorem validate_segments_distinct_raw (segments : List Segment)
    (h : 2 ≤ segments.length) :
    ((validate_segments segments).valid = true ↔
      2 ≤ (segments.map (fun s => s.speaker)).dedup.length) ∧
    ((validate_segments segments).valid = false →
      (validate_segments segments).error =
        some "Conversation needs at least 2 different speakers") := by
  cases segments with
  | nil => simp at h
  | cons a t =>
    unfold validate_segments
    rw [if_neg (by simp), if_neg (by simp only [List.length_cons] at h ⊢; omega)]
    by_cases hd : ((a :: t).map (fun s => s.speaker)).dedup.length < 2
    · rw [if_pos hd]
      exact ⟨by simpa using (by omega : ¬ 2 ≤ ((a :: t).map (fun s => s.speaker)).dedup.length), fun _ => rfl⟩
    · rw [if_neg hd]
      exact ⟨by simpa using (by omega : 2 ≤ ((a :: t).map (fun s => s.speaker)).dedup.length), fun hh => by simp at hh⟩

/-- Witness for C6 as amended: a 2-segment list with 2 distinct raw
speaker labels validates as valid. -/
theorem validate_segments_distinct_raw_witness :
    2 ≤ c6good.length ∧
    ((validate_segments c6good).valid = true ↔
      2 ≤ (c6good.map (fun s => s.speaker)).dedup.length) ∧
    ((validate_segments c6good).valid = false →
      (validate_segments c6good).error =
        some "Conversation needs at least 2 different speakers") :=
  ⟨by decide, (validate_segments_distinct_raw c6good (by decide)).1,
   (validate_segments_distinct_raw c6good (by decide)).2⟩

/-- C7: when every external scoring call fails on a non-empty
N-segment input, `analyze_full_call` still completes with
`total_segments = N`, `error_count = N` and `successful_analyses = 0`,
and every analyzed segment is the fixed error downgrade: neutral
sentiment, intensity 3, context `Error: <message>`, status error.  No
per-segment failure escapes the per-segment boundary: the result is
`Except.ok`. -/
theorem analyze_full_call_error_containment
    (oracle : Segment → Except String String) (segs : List Segment)
    (hne : segs ≠ [])
    (hfail : ∀ s ∈ segs, ∃ msg, oracle s = Except.error msg) :
    ∃ r : CallAnalysis, analyze_full_call oracle segs = Except.ok r ∧
      r.metrics.total_segments = segs.length ∧
      r.metrics.error_count = segs.length ∧
      r.metrics.successful_analyses = 0 ∧
      ∀ a ∈ r.analyzed_segments, a.sentiment = Sentiment.neutral ∧
        a.intensity = 3 ∧ a.analysis_status = AnalysisStatus.error ∧
        ∃ msg, a.context = "Error: " ++ msg := by
  have hall : ∀ x ∈ segs.map (analyze_call_segment oracle),
      x.sentiment = Sentiment.neutral ∧ x.intensity = 3 ∧
      x.analysis_status = AnalysisStatus.error ∧
      ∃ msg, x.context = "Error: " ++ msg := by
    intro x hx
    obtain ⟨s, hs, rfl⟩ := List.mem_map.mp hx
    obtain ⟨msg, hmsg⟩ := hfail s hs
    rw [analyze_call_segment_of_error oracle s msg hmsg]
    exact ⟨rfl, rfl, rfl, msg, rfl⟩
  cases segs with
  | nil => exact absurd rfl hne
  | cons a t =>
    refine ⟨_, rfl, by simp, ?_, ?_, hall⟩
    · show (((a :: t).map (analyze_call_segment oracle)).filter
        (fun s => s.analysis_status == AnalysisStatus.error)).length
          = (a :: t).length
      rw [List.filter_eq_self.mpr
        (fun x hx => by simp [(hall x hx).2.2.1]), List.length_map]
    · show (((a :: t).map (analyze_call_segment oracle)).filter
        (fun s => s.analysis_status == AnalysisStatus.success)).length = 0
      rw [List.filter_eq_nil_iff.mpr
        (fun x hx => by simp [(hall x hx).2.2.1])]
      rfl

/-- Witness for C7: the all-failures property at a concrete 2-segment
conversation and an oracle that always fails with `timeout`. -/
theorem analyze_full_call_error_containment_witness :
    ∃ r : CallAnalysis, analyze_full_call c7oracle c7segs = Except.ok r ∧
      r.metrics.total_segments = c7segs.length ∧
      r.metrics.error_count = c7segs.length ∧
      r.metrics.successful_analyses = 0 ∧
      ∀ a ∈ r.analyzed_segments, a.sentiment = Sentiment.neutral ∧
        a.intensity = 3 ∧ a.analysis_status = AnalysisStatus.error ∧
        ∃ msg, a.context = "Error: " ++ msg :=
  analyze_full_call_error_containment c7oracle c7segs
    (by simp [c7segs]) (fun s _ => ⟨"timeout", rfl⟩)

/-- C8: `analyze_full_call` fails with a caller-visible error exactly
on empty input — the `ValueError` message `No call segments provided`
— and returns a completed result for every non-empty input, whatever
the per-segment oracle does. -/
theorem analyze_full_call_empty_input
    (oracle : Segment → Except String String) (segs : List Segment) :
    (segs = [] →
      analyze_full_call oracle segs = Except.error "No call segments provided") ∧
    (segs ≠ [] → ∃ r, analyze_full_call oracle segs = Except.ok r) := by
  constructor
  · rintro rfl
    rfl
  · intro h
    cases segs with
    | nil => exact absurd rfl h
    | cons a t => exact analyze_full_call_cons_ok oracle a t

/-- Witness for C8: the empty input errors and a concrete 2-segment
input succeeds. -/
theorem analyze_full_call_empty_input_witness :
    analyze_full_call c7oracle [] = Except.error "No call segments provided" ∧
    (∃ r, analyze_full_call c7oracle c7segs = Except.ok r) :=
  ⟨(analyze_full_call_empty_input c7oracle []).1 rfl,
   (analyze_full_call_empty_input c7oracle c7segs).2 (by simp [c7segs])⟩

/-- C9: every result of `analyze_full_call` satisfies
`error_count + successful_analyses = total_segments =
length analyzed_segments`, and the analyzed segments are the
per-segment analyses of the input segments in the same order (hence
the same length as the input). -/
theorem analyze_full_call_metrics_invariant
    (oracle : Segment → Except String String) (segs : List Segment)
    (r : CallAnalysis) (h : analyze_full_call oracle segs = Except.ok r) :
    r.metrics.error_count + r.metrics.successful_analyses
        = r.metrics.total_segments ∧
    r.metrics.total_segments = r.analyzed_segments.length ∧
    r.analyzed_segments = segs.map (analyze_call_segment oracle) ∧
    r.analyzed_segments.length = segs.length := by
  cases segs with
  | nil => simp [analyze_full_call] at h
  | cons a t =>
    simp only [analyze_full_call, List.isEmpty_cons, Bool.false_eq_true,
      if_false] at h
    injection h with h
    subst h
    exact ⟨status_filter_partition _, rfl, rfl, List.length_map _ _⟩

/-- Witness for C9: the metric invariants at a concrete 2-segment
conversation with an always-failing oracle. -/
theorem analyze_full_call_metrics_invariant_witness :
    ∃ r : CallAnalysis, analyze_full_call c7oracle c7segs = Except.ok r ∧
      (r.metrics.error_count + r.metrics.successful_analyses
          = r.metrics.total_segments ∧
        r.metrics.total_segments = r.analyzed_segments.length ∧
        r.analyzed_segments = c7segs.map (analyze_call_segment c7oracle) ∧
        r.analyzed_segments.length = c7segs.length) := by
  obtain ⟨r, hr⟩ := analyze_full_call_cons_ok c7oracle
    ⟨"Cliente", "hola", none⟩ [⟨"Agente", "buenas", none⟩]
  exact ⟨r, hr, analyze_full_call_metrics_invariant c7oracle c7segs r hr⟩

end AudioSentiment
